import Mathlib

/-!
Verification of the configuration-driven resolution layer of the
`cherab.openadas` OpenADAS atomic-data resolver
(`src/cherab/openadas/openadas.py`, class `OpenADAS`).

We shallowly embed the resolver: Python dictionaries keyed by species /
ionisation stage / transition become curried functions into `Option`,
a raised `RuntimeError` becomes the `error` branch of `Except`, and the
external format readers and rate-object constructors (which live outside
the resolver and are out of design scope) are modelled as value
constructors recording exactly the arguments the resolver passes them.
A separate heap-based model of Python dictionaries captures the aliasing
semantics of `dict.copy()` used by the `config` accessor.
-/

/-- A species identity: a chemical `element` with its symbol, or an
`isotope` with its own symbol and a back-reference to the parent element's
symbol (models `cherab.core.atomic.elements`: an `Isotope` carries its
parent `Element` in its `element` attribute). -/
inductive Species where
  | element : String → Species
  | isotope : String → String → Species
deriving DecidableEq

/-- The `symbol` attribute used by the error messages. -/
def Species.symbol : Species → String
  | .element s => s
  | .isotope s _ => s

/-- Models the idiom `if isinstance(x, Isotope): x = x.element` used by
every rate query to normalize isotopes to their parent elements. -/
def Species.toElement : Species → Species
  | .isotope _ parent => .element parent
  | s => s

/-- A spectral transition: ordered pair (initial level, final level),
opaque to the resolver. -/
abbrev Transition := Int × Int

/-- The single error kind the resolver raises: Python's
`RuntimeError(message)`, which carries only its formatted message string. -/
inductive AdasError where
  | runtimeError : String → AdasError
deriving DecidableEq

/-- Python's `str.format` rendering of a 2-tuple, e.g. `(8, 7)`. -/
def pyTuple2 (t : Transition) : String :=
  "(" ++ toString t.1 ++ ", " ++ toString t.2 ++ ")"

/-- Message of the error raised by `OpenADAS.wavelength` (lines 78 and 81). -/
def wavelengthErrMsg (sym : String) (ionisation : Int) (t : Transition) : String :=
  "The requested wavelength data for (" ++ sym ++ ", " ++ toString ionisation ++
    ", " ++ pyTuple2 t ++ ") is not available."

/-- Message of the error raised by `OpenADAS.beam_cx_rate` (line 99); the
source string concatenation puts no space before the opening parenthesis. -/
def beamCxErrMsg (donorSym receiverSym : String) (ionisation : Int) (t : Transition) : String :=
  "The requested beam cx rate data does not have an entry in the Open-ADAS configuration" ++
    "(donor ion: " ++ donorSym ++ ", receiver ion: " ++ receiverSym ++
    ", ionisation: " ++ toString ionisation ++ ", transition: " ++ pyTuple2 t ++ ")."

/-- Message of the error raised by `OpenADAS.beam_stopping_rate` (line 123). -/
def beamStoppingErrMsg (beamSym plasmaSym : String) (ionisation : Int) : String :=
  "The requested beam stopping rate data does not have an entry in the Open-ADAS " ++
    "configuration (beam ion: " ++ beamSym ++ ", plasma ion: " ++ plasmaSym ++
    ", ionisation: " ++ toString ionisation ++ ")."

/-- Message of the error raised by `OpenADAS.beam_population_rate` (line 143). -/
def beamPopErrMsg (beamSym : String) (metastable : Int) (plasmaSym : String) (ionisation : Int) : String :=
  "The requested beam population rate data does not have an entry in the " ++
    "Open-ADAS configuration (beam ion: " ++ beamSym ++ ", metastable: " ++ toString metastable ++
    ", plasma ion: " ++ plasmaSym ++ ", ionisation: " ++ toString ionisation ++ ")."

/-- Message of the error raised by `OpenADAS.beam_emission_rate` (line 166). -/
def beamEmisErrMsg (beamSym plasmaSym : String) (ionisation : Int) (t : Transition) : String :=
  "The requested beam emission rate data does not have an entry in the " ++
    "Open-ADAS configuration (beam ion: " ++ beamSym ++ ", plasma ion: " ++ plasmaSym ++
    ", ionisation: " ++ toString ionisation ++ ", transition: " ++ pyTuple2 t ++ ")."

/-- Message of the error raised by `OpenADAS.impact_excitation_rate` (line 184). -/
def excitErrMsg (sym : String) (ionisation : Int) (t : Transition) : String :=
  "The requested impact excitation rate data does not have an entry in the " ++
    "Open-ADAS configuration (ion: " ++ sym ++ ", ionisation: " ++ toString ionisation ++
    ", transition: " ++ pyTuple2 t ++ ")."

/-- Message of the error raised by `OpenADAS.recombination_rate` (line 203). -/
def recombErrMsg (sym : String) (ionisation : Int) (t : Transition) : String :=
  "The requested recombination rate data does not have an entry in the " ++
    "Open-ADAS configuration (ion: " ++ sym ++ ", ionisation: " ++ toString ionisation ++
    ", transition: " ++ pyTuple2 t ++ ")."

/-- `os.path.join(data_path, filename)` on POSIX paths as used here. -/
def pathJoin (a b : String) : String := a ++ "/" ++ b

/-- Modelled from the spec: the charge-exchange format reader `adf12`
(`cherab.openadas.read`, outside the covered core) is an external
collaborator `read_charge_exchange(path, transition) → tabulated_curve`;
we record exactly the arguments the resolver passes it. -/
structure Adf12Data where
  path : String
  transition : Transition
deriving DecidableEq

/-- Modelled from the spec: the block-structured format reader `adf15`
(excitation/recombination), `read_block_structured(path, block_locator)`. -/
structure Adf15Data where
  path : String
  block : Int
deriving DecidableEq

/-- Modelled from the spec: the beam-stopping format reader `adf21`,
`read_beam_stopping(path)`. -/
structure Adf21Data where
  path : String
deriving DecidableEq

/-- Modelled from the spec: the beam-population/emission format reader
`adf22`, `read_beam_population_or_emission(path)`. -/
structure Adf22Data where
  path : String
deriving DecidableEq

def adf12 (path : String) (transition : Transition) : Adf12Data := ⟨path, transition⟩

def adf15 (path : String) (block : Int) : Adf15Data := ⟨path, block⟩

def adf21 (path : String) : Adf21Data := ⟨path⟩

def adf22 (path : String) : Adf22Data := ⟨path⟩

/-- Modelled from the spec: `BeamCXRate(donor_metastable, wavelength, data,
extrapolate)` from `cherab.openadas.rates` (outside the covered core) is a
value object wrapping exactly its constructor arguments. -/
structure BeamCXRate where
  donor_metastable : Int
  wavelength : ℚ
  data : Adf12Data
  extrapolate : Bool
deriving DecidableEq

/-- Modelled from the spec: `BeamStoppingRate(data, extrapolate)`. -/
structure BeamStoppingRate where
  data : Adf21Data
  extrapolate : Bool
deriving DecidableEq

/-- Modelled from the spec: `BeamPopulationRate(data, extrapolate)`. -/
structure BeamPopulationRate where
  data : Adf22Data
  extrapolate : Bool
deriving DecidableEq

/-- Modelled from the spec: `BeamEmissionRate(data, wavelength, extrapolate)`. -/
structure BeamEmissionRate where
  data : Adf22Data
  wavelength : ℚ
  extrapolate : Bool
deriving DecidableEq

/-- Modelled from the spec: `ImpactExcitationRate(wavelength, data, extrapolate)`. -/
structure ImpactExcitationRate where
  wavelength : ℚ
  data : Adf15Data
  extrapolate : Bool
deriving DecidableEq

/-- Modelled from the spec: `RecombinationRate(wavelength, data, extrapolate)`. -/
structure RecombinationRate where
  wavelength : ℚ
  data : Adf15Data
  extrapolate : Bool
deriving DecidableEq

/-- The nested configuration mapping, one field per top-level category key.
Each field curries the successive dictionary subscripts of the source;
`none` models a `KeyError` at any level of the nested lookup. -/
structure Config where
  wavelength : Species → Int → Transition → Option ℚ
  cxs : Species → Species → Int → Option (List (Int × String))
  bms : Species → Species → Int → Option String
  bmp : Species → Int → Species → Int → Option String
  bme : Species → Species → Int → Transition → Option String
  excitation : Species → Int → Transition → Option (String × Int)
  recombination : Species → Int → Transition → Option (String × Int)

/-- A configuration with no entries in any category. -/
def emptyConfig : Config where
  wavelength := fun _ _ _ => none
  cxs := fun _ _ _ => none
  bms := fun _ _ _ => none
  bmp := fun _ _ _ _ => none
  bme := fun _ _ _ _ => none
  excitation := fun _ _ _ => none
  recombination := fun _ _ _ => none

/-- The resolver state: `_data_path`, the stored `_config` snapshot, and the
`_permit_extrapolation` flag (`OpenADAS.__init__`). -/
structure OpenADAS where
  data_path : String
  config : Config
  permit_extrapolation : Bool

/-- `OpenADAS.wavelength` (lines 63-82): try the direct nested lookup; on a
`KeyError`, if the ion is an `Isotope` retry with its parent element, else
raise; if the retry also misses, raise.  The error message uses the original
ion's symbol. -/
def OpenADAS.wavelength (a : OpenADAS) (ion : Species) (ionisation : Int)
    (transition : Transition) : Except AdasError ℚ :=
  match a.config.wavelength ion ionisation transition with
  | some w => .ok w
  | none =>
    match ion with
    | .isotope _ parent =>
      match a.config.wavelength (.element parent) ionisation transition with
      | some w => .ok w
      | none => .error (.runtimeError (wavelengthErrMsg ion.symbol ionisation transition))
    | .element _ => .error (.runtimeError (wavelengthErrMsg ion.symbol ionisation transition))

/-- Equality of `Except` results is decidable; used to evaluate concrete
resolver calls in witnesses. -/
instance {ε α : Type} [DecidableEq ε] [DecidableEq α] : DecidableEq (Except ε α) := fun x y =>
  match x, y with
  | .ok a, .ok b =>
    if h : a = b then .isTrue (by rw [h]) else
      .isFalse (fun hc => h (Except.ok.inj hc))
  | .ok _, .error _ => .isFalse (fun hc => Except.noConfusion hc)
  | .error _, .ok _ => .isFalse (fun hc => Except.noConfusion hc)
  | .error a, .error b =>
    if h : a = b then .isTrue (by rw [h]) else
      .isFalse (fun hc => h (Except.error.inj hc))

/-- `OpenADAS.beam_cx_rate` (lines 84-108): resolve the wavelength against
the (un-normalized) receiver at `receiver_ionisation - 1` first, then
normalize both species, then look up `cxs[donor][receiver][ionisation]` and
build one `BeamCXRate` per configured (metastable, file) pair, in
configuration order. -/
def OpenADAS.beam_cx_rate (a : OpenADAS) (donor_ion receiver_ion : Species)
    (receiver_ionisation : Int) (transition : Transition) :
    Except AdasError (List BeamCXRate) :=
  match a.wavelength receiver_ion (receiver_ionisation - 1) transition with
  | .error e => .error e
  | .ok wavelength =>
    let donor_ion := donor_ion.toElement
    let receiver_ion := receiver_ion.toElement
    match a.config.cxs donor_ion receiver_ion receiver_ionisation with
    | none => .error (.runtimeError
        (beamCxErrMsg donor_ion.symbol receiver_ion.symbol receiver_ionisation transition))
    | some data =>
      .ok (data.map fun p =>
        { donor_metastable := p.1
          wavelength := wavelength
          data := adf12 (pathJoin a.data_path p.2) transition
          extrapolate := a.permit_extrapolation })

/-- `OpenADAS.beam_stopping_rate` (lines 110-128): normalize both species
unconditionally, look up `bms[beam][plasma][ionisation]`, build the rate. -/
def OpenADAS.beam_stopping_rate (a : OpenADAS) (beam_ion plasma_ion : Species)
    (ionisation : Int) : Except AdasError BeamStoppingRate :=
  let beam_ion := beam_ion.toElement
  let plasma_ion := plasma_ion.toElement
  match a.config.bms beam_ion plasma_ion ionisation with
  | none => .error (.runtimeError
      (beamStoppingErrMsg beam_ion.symbol plasma_ion.symbol ionisation))
  | some filename =>
    .ok { data := adf21 (pathJoin a.data_path filename)
          extrapolate := a.permit_extrapolation }

/-- `OpenADAS.beam_population_rate` (lines 130-148): normalize both species
unconditionally (the metastable level is used as an opaque key), look up
`bmp[beam][metastable][plasma][ionisation]`, build the rate. -/
def OpenADAS.beam_population_rate (a : OpenADAS) (beam_ion : Species)
    (metastable : Int) (plasma_ion : Species) (ionisation : Int) :
    Except AdasError BeamPopulationRate :=
  let beam_ion := beam_ion.toElement
  let plasma_ion := plasma_ion.toElement
  match a.config.bmp beam_ion metastable plasma_ion ionisation with
  | none => .error (.runtimeError
      (beamPopErrMsg beam_ion.symbol metastable plasma_ion.symbol ionisation))
  | some filename =>
    .ok { data := adf22 (pathJoin a.data_path filename)
          extrapolate := a.permit_extrapolation }

/-- `OpenADAS.beam_emission_rate` (lines 150-171): resolve the wavelength
against the (un-normalized) beam species at ionisation stage 0 first, then
normalize both species, then look up `bme[beam][plasma][ionisation][transition]`. -/
def OpenADAS.beam_emission_rate (a : OpenADAS) (beam_ion plasma_ion : Species)
    (ionisation : Int) (transition : Transition) :
    Except AdasError BeamEmissionRate :=
  match a.wavelength beam_ion 0 transition with
  | .error e => .error e
  | .ok wavelength =>
    let beam_ion := beam_ion.toElement
    let plasma_ion := plasma_ion.toElement
    match a.config.bme beam_ion plasma_ion ionisation transition with
    | none => .error (.runtimeError
        (beamEmisErrMsg beam_ion.symbol plasma_ion.symbol ionisation transition))
    | some filename =>
      .ok { data := adf22 (pathJoin a.data_path filename)
            wavelength := wavelength
            extrapolate := a.permit_extrapolation }

/-- `OpenADAS.impact_excitation_rate` (lines 173-190): resolve the
wavelength against the (un-normalized) ion first, then normalize the ion,
then look up `excitation[ion][ionisation][transition]` yielding a
(file, block) pair. -/
def OpenADAS.impact_excitation_rate (a : OpenADAS) (ion : Species)
    (ionisation : Int) (transition : Transition) :
    Except AdasError ImpactExcitationRate :=
  match a.wavelength ion ionisation transition with
  | .error e => .error e
  | .ok wavelength =>
    let ion := ion.toElement
    match a.config.excitation ion ionisation transition with
    | none => .error (.runtimeError (excitErrMsg ion.symbol ionisation transition))
    | some fb =>
      .ok { wavelength := wavelength
            data := adf15 (pathJoin a.data_path fb.1) fb.2
            extrapolate := a.permit_extrapolation }

/-- `OpenADAS.recombination_rate` (lines 192-209): identical shape to
`impact_excitation_rate`, against the `recombination` branch. -/
def OpenADAS.recombination_rate (a : OpenADAS) (ion : Species)
    (ionisation : Int) (transition : Transition) :
    Except AdasError RecombinationRate :=
  match a.wavelength ion ionisation transition with
  | .error e => .error e
  | .ok wavelength =>
    let ion := ion.toElement
    match a.config.recombination ion ionisation transition with
    | none => .error (.runtimeError (recombErrMsg ion.symbol ionisation transition))
    | some fb =>
      .ok { wavelength := wavelength
            data := adf15 (pathJoin a.data_path fb.1) fb.2
            extrapolate := a.permit_extrapolation }

/-! ### A heap model of the nested Python dictionaries

The `config` property (lines 41-44) returns `self._config.copy()` — Python's
shallow `dict.copy`, which allocates a new top-level dictionary whose values
(references to the nested sub-dictionaries) are shared with the original.
To reason about mutation through the returned structure we model
dictionaries as heap objects addressed by natural numbers. -/

/-- A dictionary key: the top-level category strings, species objects,
integer ionisation stages / metastable levels, and transition tuples. -/
inductive Key where
  | str : String → Key
  | species : Species → Key
  | int : Int → Key
  | trans : Transition → Key
deriving DecidableEq

/-- A Python value stored in a dictionary slot: a reference to another
dictionary on the heap, or a numeric leaf. -/
inductive PyVal where
  | ref : Nat → PyVal
  | num : ℚ → PyVal
deriving DecidableEq

/-- A dictionary object: association list of key/value slots. -/
abbrev Dict := List (Key × PyVal)

/-- The heap: association list from addresses to dictionary objects. -/
abbrev Heap := List (Nat × Dict)

/-- Look a key up in a dictionary object. -/
def dictGet : Dict → Key → Option PyVal
  | [], _ => none
  | (k, v) :: d, k2 => if k = k2 then some v else dictGet d k2

/-- Python `d[k] = v` on a dictionary object. -/
def dictSet : Dict → Key → PyVal → Dict
  | [], k2, v2 => [(k2, v2)]
  | (k, v) :: d, k2, v2 => if k = k2 then (k2, v2) :: d else (k, v) :: dictSet d k2 v2

/-- Dereference a heap address. -/
def heapGet : Heap → Nat → Option Dict
  | [], _ => none
  | (a, d) :: h, a2 => if a = a2 then some d else heapGet h a2

/-- Replace the dictionary object stored at an address. -/
def heapSet : Heap → Nat → Dict → Heap
  | [], _, _ => []
  | (a, d) :: h, a2, d2 => if a = a2 then (a2, d2) :: h else (a, d) :: heapSet h a2 d2

/-- Follow a chain of subscripts `root[k1][k2]...[kn]` through the heap,
returning the final stored value. -/
def pathLookup (h : Heap) (a : Nat) : List Key → Option PyVal
  | [] => some (.ref a)
  | k :: ks =>
    match heapGet h a with
    | none => none
    | some d =>
      match dictGet d k with
      | none => none
      | some v =>
        match ks with
        | [] => some v
        | _ =>
          match v with
          | .ref a2 => pathLookup h a2 ks
          | _ => none

/-- A caller-side mutation `root[k1]...[kn] = v` through the heap: follow
the references to the dictionary holding the final key and assign it. -/
def setAtPath (h : Heap) (a : Nat) : List Key → PyVal → Heap
  | [], _ => h
  | k :: ks, v =>
    match heapGet h a with
    | none => h
    | some d =>
      match ks with
      | [] => heapSet h a (dictSet d k v)
      | _ =>
        match dictGet d k with
        | some (.ref a2) => setAtPath h a2 ks v
        | _ => h

/-- The `config` property (line 44): `self._config.copy()` — allocate a
fresh top-level dictionary holding the same slots (hence the same nested
references) as the stored one. -/
def configCopy (h : Heap) (a : Nat) (fresh : Nat) : Heap :=
  match heapGet h a with
  | none => h
  | some d => h ++ [(fresh, d)]

/-- `OpenADAS.wavelength` read through the heap-modelled stored
configuration at address `cfg`: the direct nested lookup, with the
isotope-to-element retry on a miss (result value only). -/
def wavelengthHeap (h : Heap) (cfg : Nat) (ion : Species) (ionisation : Int)
    (transition : Transition) : Option PyVal :=
  match pathLookup h cfg [.str "wavelength", .species ion, .int ionisation, .trans transition] with
  | some v => some v
  | none =>
    match ion with
    | .isotope _ parent =>
      pathLookup h cfg [.str "wavelength", .species (.element parent), .int ionisation, .trans transition]
    | _ => none

/-- Address `f` appears nowhere as a reference inside the heap's objects. -/
def refFree (h : Heap) (f : Nat) : Prop :=
  ∀ p ∈ h, ∀ kv ∈ p.2, kv.2 ≠ PyVal.ref f

instance (h : Heap) (f : Nat) : Decidable (refFree h f) := by
  unfold refFree; infer_instance

/-! ### Concrete fixtures used by witnesses and counterexamples -/

/-- A resolver over the empty configuration. -/
def emptyAdas : OpenADAS := ⟨"/data", emptyConfig, false⟩

/-- A small concrete configuration exercising every category.  The
wavelength branch holds the spec scenario entry
`wavelength[Carbon][5][(8,7)] = 529.1` (as the rational `5291/10`), an
isotope-level wavelength entry for the isotope `C13`, and a beam entry for
`D`; the other branches hold one entry each. -/
def demoConfig : Config where
  wavelength := fun s i t =>
    if s = Species.element "C" ∧ i = 5 ∧ t = (8, 7) then some (mkRat 5291 10)
    else if s = Species.isotope "C13" "C" ∧ i = 5 ∧ t = (8, 7) then some 100
    else if s = Species.element "D" ∧ i = 0 ∧ t = (3, 2) then some 656
    else if s = Species.element "N" ∧ i = 3 ∧ t = (2, 1) then some 500
    else none
  cxs := fun d r i =>
    if d = Species.element "D" ∧ r = Species.element "C" ∧ i = 6 then
      some [(1, "file_a.dat"), (2, "file_b.dat")]
    else none
  bms := fun b p i =>
    if b = Species.element "D" ∧ p = Species.element "C" ∧ i = 6 then some "bms.dat" else none
  bmp := fun b m p i =>
    if b = Species.element "D" ∧ m = 2 ∧ p = Species.element "C" ∧ i = 6 then
      some "bmp.dat" else none
  bme := fun b p i t =>
    if b = Species.element "D" ∧ p = Species.element "C" ∧ i = 6 ∧ t = (3, 2) then
      some "bme.dat" else none
  excitation := fun s i t =>
    if s = Species.element "C" ∧ i = 5 ∧ t = (8, 7) then some ("ex.dat", 2) else none
  recombination := fun s i t =>
    if s = Species.element "C" ∧ i = 5 ∧ t = (8, 7) then some ("rec.dat", 4) else none

/-- A resolver over `demoConfig`. -/
def demoAdas : OpenADAS := ⟨"/data", demoConfig, false⟩

/-- Claim C1: for an Isotope species with no isotope-level wavelength entry
but an Element-level entry, `wavelength` returns the Element-level value;
the direct lookup is tried first (a hit short-circuits), and the Element
retry happens only when the species is an Isotope (an Element species that
misses fails at once). -/
theorem wavelength_isotope_fallback (a : OpenADAS) (sym parent : String)
    (ionisation : Int) (t : Transition) :
    (∀ w, a.config.wavelength (.isotope sym parent) ionisation t = some w →
      a.wavelength (.isotope sym parent) ionisation t = .ok w) ∧
    (a.config.wavelength (.isotope sym parent) ionisation t = none →
      ∀ w, a.config.wavelength (.element parent) ionisation t = some w →
        a.wavelength (.isotope sym parent) ionisation t = .ok w) ∧
    (∀ s, a.config.wavelength (.element s) ionisation t = none →
      a.wavelength (.element s) ionisation t =
        .error (.runtimeError (wavelengthErrMsg s ionisation t))) := by
  refine ⟨?_, ?_, ?_⟩ <;> intros <;>
    simp [OpenADAS.wavelength, Species.symbol, *]

/-- Witness for C1, the spec scenario: `wavelength[C][5][(8,7)] = 529.1`
and the isotope `C12` of carbon has no isotope-level entry, so
`wavelength(C12, 5, (8,7))` returns `529.1`. -/
theorem wavelength_isotope_fallback_witness :
    demoAdas.wavelength (.isotope "C12" "C") 5 (8, 7) = .ok (mkRat 5291 10) :=
  (wavelength_isotope_fallback demoAdas "C12" "C" 5 (8, 7)).2.1 (by decide)
    (mkRat 5291 10) (by decide)

/-- Claim C2: whenever the hierarchical configuration lookup of a query
method fails to resolve to a terminal file/block reference, the method
fails with the DataNotAvailable error (a `RuntimeError`) identifying the
query parameters, and never returns a (partially constructed) rate object:
one conjunct per query method. -/
theorem query_miss_raises_data_not_available (a : OpenADAS)
    (s sym par : String) (dn rc bm pl ion : Species) (m i : Int)
    (t : Transition) (w : ℚ) :
    (a.config.wavelength (.element s) i t = none →
      a.wavelength (.element s) i t =
        .error (.runtimeError (wavelengthErrMsg s i t))) ∧
    (a.config.wavelength (.isotope sym par) i t = none →
      a.config.wavelength (.element par) i t = none →
      a.wavelength (.isotope sym par) i t =
        .error (.runtimeError (wavelengthErrMsg sym i t))) ∧
    (a.wavelength rc (i - 1) t = .ok w →
      a.config.cxs dn.toElement rc.toElement i = none →
      a.beam_cx_rate dn rc i t = .error (.runtimeError
        (beamCxErrMsg dn.toElement.symbol rc.toElement.symbol i t))) ∧
    (a.config.bms bm.toElement pl.toElement i = none →
      a.beam_stopping_rate bm pl i = .error (.runtimeError
        (beamStoppingErrMsg bm.toElement.symbol pl.toElement.symbol i))) ∧
    (a.config.bmp bm.toElement m pl.toElement i = none →
      a.beam_population_rate bm m pl i = .error (.runtimeError
        (beamPopErrMsg bm.toElement.symbol m pl.toElement.symbol i))) ∧
    (a.wavelength bm 0 t = .ok w →
      a.config.bme bm.toElement pl.toElement i t = none →
      a.beam_emission_rate bm pl i t = .error (.runtimeError
        (beamEmisErrMsg bm.toElement.symbol pl.toElement.symbol i t))) ∧
    (a.wavelength ion i t = .ok w →
      a.config.excitation ion.toElement i t = none →
      a.impact_excitation_rate ion i t = .error (.runtimeError
        (excitErrMsg ion.toElement.symbol i t))) ∧
    (a.wavelength ion i t = .ok w →
      a.config.recombination ion.toElement i t = none →
      a.recombination_rate ion i t = .error (.runtimeError
        (recombErrMsg ion.toElement.symbol i t))) := by
  refine ⟨?_, ?_, ?_, ?_, ?_, ?_, ?_, ?_⟩
  · intro h1; simp [OpenADAS.wavelength, Species.symbol, h1]
  · intro h1 h2; simp [OpenADAS.wavelength, Species.symbol, h1, h2]
  · intro h1 h2; simp [OpenADAS.beam_cx_rate, h1, h2]
  · intro h1; simp [OpenADAS.beam_stopping_rate, h1]
  · intro h1; simp [OpenADAS.beam_population_rate, h1]
  · intro h1 h2; simp [OpenADAS.beam_emission_rate, h1, h2]
  · intro h1 h2; simp [OpenADAS.impact_excitation_rate, h1, h2]
  · intro h1 h2; simp [OpenADAS.recombination_rate, h1, h2]

/-- Witness for C2: one concrete failing lookup per query method, each
discharged by applying `query_miss_raises_data_not_available` at explicit
inputs over the empty and demo configurations. -/
theorem query_miss_raises_data_not_available_witness :
    emptyAdas.wavelength (.element "C") 5 (8, 7) =
      .error (.runtimeError (wavelengthErrMsg "C" 5 (8, 7))) ∧
    emptyAdas.wavelength (.isotope "C12" "C") 5 (8, 7) =
      .error (.runtimeError (wavelengthErrMsg "C12" 5 (8, 7))) ∧
    demoAdas.beam_cx_rate (.element "X") (.element "C") 6 (8, 7) =
      .error (.runtimeError (beamCxErrMsg "X" "C" 6 (8, 7))) ∧
    demoAdas.beam_stopping_rate (.element "D") (.element "X") 6 =
      .error (.runtimeError (beamStoppingErrMsg "D" "X" 6)) ∧
    demoAdas.beam_population_rate (.element "D") 3 (.element "C") 6 =
      .error (.runtimeError (beamPopErrMsg "D" 3 "C" 6)) ∧
    demoAdas.beam_emission_rate (.element "D") (.element "C") 7 (3, 2) =
      .error (.runtimeError (beamEmisErrMsg "D" "C" 7 (3, 2))) ∧
    demoAdas.impact_excitation_rate (.element "N") 3 (2, 1) =
      .error (.runtimeError (excitErrMsg "N" 3 (2, 1))) ∧
    demoAdas.recombination_rate (.element "N") 3 (2, 1) =
      .error (.runtimeError (recombErrMsg "N" 3 (2, 1))) :=
  ⟨(query_miss_raises_data_not_available emptyAdas "C" "q" "q" (.element "q")
      (.element "q") (.element "q") (.element "q") (.element "q") 0 5 (8, 7) 0).1
      (by decide),
   (query_miss_raises_data_not_available emptyAdas "q" "C12" "C" (.element "q")
      (.element "q") (.element "q") (.element "q") (.element "q") 0 5 (8, 7) 0).2.1
      (by decide) (by decide),
   (query_miss_raises_data_not_available demoAdas "q" "q" "q" (.element "X")
      (.element "C") (.element "q") (.element "q") (.element "q") 0 6 (8, 7)
      (mkRat 5291 10)).2.2.1 (by decide) (by decide),
   (query_miss_raises_data_not_available demoAdas "q" "q" "q" (.element "q")
      (.element "q") (.element "D") (.element "X") (.element "q") 0 6 (8, 7)
      0).2.2.2.1 (by decide),
   (query_miss_raises_data_not_available demoAdas "q" "q" "q" (.element "q")
      (.element "q") (.element "D") (.element "C") (.element "q") 3 6 (8, 7)
      0).2.2.2.2.1 (by decide),
   (query_miss_raises_data_not_available demoAdas "q" "q" "q" (.element "q")
      (.element "q") (.element "D") (.element "C") (.element "q") 0 7 (3, 2)
      656).2.2.2.2.2.1 (by decide) (by decide),
   (query_miss_raises_data_not_available demoAdas "q" "q" "q" (.element "q")
      (.element "q") (.element "q") (.element "q") (.element "N") 0 3 (2, 1)
      500).2.2.2.2.2.2.1 (by decide) (by decide),
   (query_miss_raises_data_not_available demoAdas "q" "q" "q" (.element "q")
      (.element "q") (.element "q") (.element "q") (.element "N") 0 3 (2, 1)
      500).2.2.2.2.2.2.2 (by decide) (by decide)⟩

/-- Counterexample to claim C3: the resolver raises plain
`RuntimeError(message)` values, so the identifying query parameters are
carried only inside the formatted message string.  Two distinct failing
queries — the element `"X"` and an isotope whose own symbol is also `"X"` —
produce *identical* error values, so the error value cannot carry the
identifying species as structured context. -/
theorem error_not_structured_counterexample :
    Species.element "X" ≠ Species.isotope "X" "Y" ∧
    emptyAdas.wavelength (.element "X") 5 (8, 7) =
      emptyAdas.wavelength (.isotope "X" "Y") 5 (8, 7) ∧
    emptyAdas.wavelength (.element "X") 5 (8, 7) =
      .error (.runtimeError (wavelengthErrMsg "X" 5 (8, 7))) := by
  decide

/-- Claim C3 (amended): on a failing lookup the raised error is a
`RuntimeError` whose only payload is the formatted message string embedding
the query parameters (species symbol, ionisation stage, transition); the
parameters are not attached as separate structured fields (shown for the
`wavelength` and `beam_cx_rate` sites cited by the claim). -/
theorem error_carries_message_only (a : OpenADAS) (ion dn rc : Species)
    (i : Int) (t : Transition) (w : ℚ) :
    (a.config.wavelength ion i t = none →
      a.config.wavelength ion.toElement i t = none →
      a.wavelength ion i t =
        .error (.runtimeError (wavelengthErrMsg ion.symbol i t))) ∧
    (a.wavelength rc (i - 1) t = .ok w →
      a.config.cxs dn.toElement rc.toElement i = none →
      a.beam_cx_rate dn rc i t = .error (.runtimeError
        (beamCxErrMsg dn.toElement.symbol rc.toElement.symbol i t))) := by
  refine ⟨?_, ?_⟩
  · intro h1 h2
    cases ion <;> simp_all [OpenADAS.wavelength, Species.symbol, Species.toElement]
  · intro h1 h2; simp [OpenADAS.beam_cx_rate, h1, h2]

/-- Witness for the amended C3 at concrete inputs. -/
theorem error_carries_message_only_witness :
    emptyAdas.wavelength (.isotope "N15" "N") 5 (8, 7) =
      .error (.runtimeError (wavelengthErrMsg "N15" 5 (8, 7))) ∧
    demoAdas.beam_cx_rate (.element "B") (.element "C") 6 (8, 7) =
      .error (.runtimeError (beamCxErrMsg "B" "C" 6 (8, 7))) :=
  ⟨(error_carries_message_only emptyAdas (.isotope "N15" "N") (.element "q")
      (.element "q") 5 (8, 7) 0).1 (by decide) (by decide),
   (error_carries_message_only demoAdas (.element "q") (.element "B")
      (.element "C") 6 (8, 7) (mkRat 5291 10)).2 (by decide) (by decide)⟩

/-- Heap fixture: the stored configuration tree
`{"wavelength": {C: {5: {(8,7): 529.1}}}}`, with the top-level dictionary at
address 0 and the nested dictionaries at addresses 1-3. -/
def heap0 : Heap :=
  [(0, [(.str "wavelength", .ref 1)]),
   (1, [(.species (.element "C"), .ref 2)]),
   (2, [(.int 5, .ref 3)]),
   (3, [(.trans (8, 7), .num (mkRat 5291 10))])]

/-- The structure the `config` accessor hands the caller: a shallow copy of
the top-level dictionary, allocated at the fresh address 4 and sharing the
nested dictionaries 1-3 with the stored configuration. -/
def heapCopied : Heap := configCopy heap0 0 4

/-- A caller-side mutation applied to the returned structure:
`copy["wavelength"][C][5][(8,7)] = 999`, starting from the copy's address 4. -/
def heapMutated : Heap :=
  setAtPath heapCopied 4
    [.str "wavelength", .species (.element "C"), .int 5, .trans (8, 7)] (.num 999)

/-- Counterexample to claim C4: `dict.copy()` is shallow, so a mutation
applied through the structure returned by the `config` accessor, below the
top level, *does* change the stored configuration and the result of a
subsequent `wavelength` query through it: the query via the stored root 0
returns 529.1 before the mutation and 999 after it. -/
theorem config_copy_not_deep_counterexample :
    wavelengthHeap heap0 0 (.element "C") 5 (8, 7) = some (.num (mkRat 5291 10)) ∧
    heapGet heap0 4 = none ∧
    wavelengthHeap heapMutated 0 (.element "C") 5 (8, 7) = some (.num 999) ∧
    PyVal.num 999 ≠ PyVal.num (mkRat 5291 10) := by
  decide

/-- Dereferencing an address absent from a heap extension's prefix finds
the appended object. -/
theorem heapGet_snoc_self (h : Heap) (f : Nat) (d : Dict)
    (hf : heapGet h f = none) : heapGet (h ++ [(f, d)]) f = some d := by
  induction h with
  | nil => simp [heapGet]
  | cons p h ih =>
    obtain ⟨pa, pd⟩ := p
    simp only [heapGet, List.cons_append] at hf ⊢
    split at hf
    · exact absurd hf (by simp)
    · split
      · simp_all
      · exact ih hf

/-- Dereferencing any other address ignores an appended object. -/
theorem heapGet_snoc_ne (h : Heap) (f : Nat) (d : Dict) (a : Nat)
    (ha : a ≠ f) : heapGet (h ++ [(f, d)]) a = heapGet h a := by
  induction h with
  | nil => simp [heapGet, Ne.symm ha]
  | cons p h ih =>
    obtain ⟨pa, pd⟩ := p
    simp only [heapGet, List.cons_append]
    split <;> simp [ih]

/-- Replacing the object at a fresh appended address only touches the
appended cell. -/
theorem heapSet_snoc (h : Heap) (f : Nat) (d d2 : Dict)
    (hf : heapGet h f = none) : heapSet (h ++ [(f, d)]) f d2 = h ++ [(f, d2)] := by
  induction h with
  | nil => simp [heapSet]
  | cons p h ih =>
    obtain ⟨pa, pd⟩ := p
    simp only [heapGet, List.cons_append] at hf ⊢
    split at hf
    · exact absurd hf (by simp)
    · simp only [heapSet]
      split
      · simp_all
      · simp [ih hf]

/-- A successful dereference locates a cell of the heap. -/
theorem heapGet_mem (h : Heap) (a : Nat) (d : Dict)
    (hd : heapGet h a = some d) : (a, d) ∈ h := by
  induction h with
  | nil => simp [heapGet] at hd
  | cons p h ih =>
    obtain ⟨pa, pd⟩ := p
    simp only [heapGet] at hd
    split at hd
    · simp_all
    · simp [ih hd]

/-- A successful dictionary lookup locates a slot of the dictionary. -/
theorem dictGet_mem (d : Dict) (k : Key) (v : PyVal)
    (hv : dictGet d k = some v) : (k, v) ∈ d := by
  induction d with
  | nil => simp [dictGet] at hv
  | cons p d ih =>
    obtain ⟨pk, pv⟩ := p
    simp only [dictGet] at hv
    split at hv
    · simp_all
    · simp [ih hv]

/-- Path lookups that start away from a fresh, unreferenced address are
unaffected by appending an object at that address. -/
theorem pathLookup_snoc (h : Heap) (f : Nat) (d : Dict) (hrf : refFree h f) :
    ∀ (ks : List Key) (a : Nat), a ≠ f →
      pathLookup (h ++ [(f, d)]) a ks = pathLookup h a ks := by
  intro ks
  induction ks with
  | nil => intro a _; rfl
  | cons k ks ih =>
    intro a ha
    simp only [pathLookup, heapGet_snoc_ne h f d a ha]
    cases hga : heapGet h a with
    | none => rfl
    | some dct =>
      dsimp only
      cases hdg : dictGet dct k with
      | none => rfl
      | some v =>
        dsimp only
        cases ks with
        | nil => rfl
        | cons k2 ks2 =>
          dsimp only
          cases v with
          | num q => rfl
          | ref a2 =>
            refine ih a2 (fun hc => ?_)
            exact hrf (a, dct) (heapGet_mem h a dct hga) (k, .ref a2)
              (dictGet_mem dct k _ hdg) (by rw [hc])

/-- Claim C4 (amended): the `config` accessor's copy is shallow — only the
top-level dictionary is freshly allocated.  Assigning a key at the *top
level* of the returned structure leaves every subsequent `wavelength` query
through the stored configuration unchanged; mutations below the top level
are not isolated (see the counterexample). -/
theorem config_copy_top_level_isolated (h : Heap) (root f : Nat) (k : Key)
    (v : PyVal) (ion : Species) (i : Int) (t : Transition)
    (hf : heapGet h f = none) (hrf : refFree h f) (hne : root ≠ f) :
    wavelengthHeap (setAtPath (configCopy h root f) f [k] v) root ion i t =
      wavelengthHeap h root ion i t := by
  unfold configCopy
  cases hroot : heapGet h root with
  | none =>
    dsimp only
    simp only [setAtPath, hf]
  | some d =>
    dsimp only
    simp only [setAtPath, heapGet_snoc_self h f d hf,
      heapSet_snoc h f d (dictSet d k v) hf]
    cases ion with
    | element s =>
      dsimp only [wavelengthHeap]
      rw [pathLookup_snoc h f (dictSet d k v) hrf _ root hne]
    | isotope s parent =>
      dsimp only [wavelengthHeap]
      rw [pathLookup_snoc h f (dictSet d k v) hrf _ root hne,
        pathLookup_snoc h f (dictSet d k v) hrf _ root hne]

/-- Witness for the amended C4: a concrete top-level assignment on the
copied dictionary leaves the stored query result at 529.1. -/
theorem config_copy_top_level_isolated_witness :
    wavelengthHeap (setAtPath (configCopy heap0 0 4) 4 [.str "extra"] (.num 1)) 0
        (.element "C") 5 (8, 7) =
      wavelengthHeap heap0 0 (.element "C") 5 (8, 7) :=
  config_copy_top_level_isolated heap0 0 4 (.str "extra") (.num 1)
    (.element "C") 5 (8, 7) (by decide) (by decide) (by decide)

/-- Claim C5: when `cxs[donor][receiver][receiver_ionisation]` is configured
as a list of (metastable, file) pairs, `beam_cx_rate` returns one rate per
configured pair, the i-th tagged with the i-th configured metastable level,
in configuration order, without resorting. -/
theorem beam_cx_rate_order_and_length (a : OpenADAS) (dn rc : Species)
    (ri : Int) (t : Transition) (w : ℚ) (data : List (Int × String))
    (hw : a.wavelength rc (ri - 1) t = .ok w)
    (hc : a.config.cxs dn.toElement rc.toElement ri = some data) :
    ∃ rates, a.beam_cx_rate dn rc ri t = .ok rates ∧
      rates.length = data.length ∧
      rates.map (fun r => r.donor_metastable) = data.map Prod.fst := by
  refine ⟨data.map fun p =>
      { donor_metastable := p.1, wavelength := w,
        data := adf12 (pathJoin a.data_path p.2) t,
        extrapolate := a.permit_extrapolation }, ?_, by simp, by simp⟩
  simp [OpenADAS.beam_cx_rate, hw, hc]

/-- Witness for C5, the spec scenario: two configured pairs produce two
rates tagged with metastable levels 1 and 2, in that order. -/
theorem beam_cx_rate_order_and_length_witness :
    ∃ rates, demoAdas.beam_cx_rate (.element "D") (.element "C") 6 (8, 7) = .ok rates ∧
      rates.length = 2 ∧
      rates.map (fun r => r.donor_metastable) = [1, 2] :=
  beam_cx_rate_order_and_length demoAdas (.element "D") (.element "C") 6 (8, 7)
    (mkRat 5291 10) [(1, "file_a.dat"), (2, "file_b.dat")] (by decide) (by decide)

/-- Claim C6: `beam_cx_rate` resolves the wavelength first, against the
un-normalized receiver species at `receiver_ionisation - 1` and the given
transition, before any normalization or `cxs` lookup; a failing inner
wavelength lookup fails the whole call with exactly that error. -/
theorem beam_cx_rate_wavelength_first (a : OpenADAS) (dn rc : Species)
    (ri : Int) (t : Transition) (e : AdasError)
    (hw : a.wavelength rc (ri - 1) t = .error e) :
    a.beam_cx_rate dn rc ri t = .error e := by
  simp [OpenADAS.beam_cx_rate, hw]

/-- Witness for C6: with no wavelength entry for carbon at stage 5, the
charge-exchange query fails with exactly the wavelength error. -/
theorem beam_cx_rate_wavelength_first_witness :
    emptyAdas.beam_cx_rate (.element "D") (.element "C") 6 (8, 7) =
      .error (.runtimeError (wavelengthErrMsg "C" 5 (8, 7))) :=
  beam_cx_rate_wavelength_first emptyAdas (.element "D") (.element "C") 6 (8, 7)
    (.runtimeError (wavelengthErrMsg "C" 5 (8, 7))) (by decide)

/-- Counterexample to claim C7: `impact_excitation_rate` resolves its inner
wavelength against the *un-normalized* species, so an isotope that has its
own wavelength entry (here `C13 ↦ 100` while `C ↦ 529.1`) yields a
different rate object than its parent element — the two calls do not
resolve identically. -/
theorem isotope_not_identical_counterexample :
    demoAdas.impact_excitation_rate (.isotope "C13" "C") 5 (8, 7) ≠
      demoAdas.impact_excitation_rate (.element "C") 5 (8, 7) := by
  decide

/-- Claim C7 (amended): `beam_stopping_rate` and `beam_population_rate`
normalize unconditionally, so an Isotope argument (in either species
position) resolves exactly like its parent Element; for
`impact_excitation_rate` and `recombination_rate` this holds only when the
configuration has no isotope-level wavelength entry and an element-level
entry is present (their inner wavelength lookup uses the un-normalized
species). -/
theorem isotope_resolves_like_element (a : OpenADAS) (sym parent : String)
    (other : Species) (m i : Int) (t : Transition) (w : ℚ) :
    (a.beam_stopping_rate (.isotope sym parent) other i =
      a.beam_stopping_rate (.element parent) other i) ∧
    (a.beam_stopping_rate other (.isotope sym parent) i =
      a.beam_stopping_rate other (.element parent) i) ∧
    (a.beam_population_rate (.isotope sym parent) m other i =
      a.beam_population_rate (.element parent) m other i) ∧
    (a.beam_population_rate other m (.isotope sym parent) i =
      a.beam_population_rate other m (.element parent) i) ∧
    (a.config.wavelength (.isotope sym parent) i t = none →
      a.config.wavelength (.element parent) i t = some w →
      a.impact_excitation_rate (.isotope sym parent) i t =
        a.impact_excitation_rate (.element parent) i t) ∧
    (a.config.wavelength (.isotope sym parent) i t = none →
      a.config.wavelength (.element parent) i t = some w →
      a.recombination_rate (.isotope sym parent) i t =
        a.recombination_rate (.element parent) i t) := by
  refine ⟨rfl, rfl, rfl, rfl, ?_, ?_⟩
  · intro h1 h2
    simp [OpenADAS.impact_excitation_rate, OpenADAS.wavelength,
      Species.toElement, h1, h2]
  · intro h1 h2
    simp [OpenADAS.recombination_rate, OpenADAS.wavelength,
      Species.toElement, h1, h2]

/-- Witness for the amended C7: the isotope `C12` (no isotope-level
wavelength entry; element-level entry present) resolves like carbon in all
four methods. -/
theorem isotope_resolves_like_element_witness :
    (demoAdas.beam_stopping_rate (.isotope "C12" "C") (.element "D") 5 =
      demoAdas.beam_stopping_rate (.element "C") (.element "D") 5) ∧
    (demoAdas.beam_stopping_rate (.element "D") (.isotope "C12" "C") 5 =
      demoAdas.beam_stopping_rate (.element "D") (.element "C") 5) ∧
    (demoAdas.beam_population_rate (.isotope "C12" "C") 2 (.element "D") 5 =
      demoAdas.beam_population_rate (.element "C") 2 (.element "D") 5) ∧
    (demoAdas.beam_population_rate (.element "D") 2 (.isotope "C12" "C") 5 =
      demoAdas.beam_population_rate (.element "D") 2 (.element "C") 5) ∧
    (demoAdas.impact_excitation_rate (.isotope "C12" "C") 5 (8, 7) =
      demoAdas.impact_excitation_rate (.element "C") 5 (8, 7)) ∧
    (demoAdas.recombination_rate (.isotope "C12" "C") 5 (8, 7) =
      demoAdas.recombination_rate (.element "C") 5 (8, 7)) :=
  ⟨(isotope_resolves_like_element demoAdas "C12" "C" (.element "D") 2 5 (8, 7)
      (mkRat 5291 10)).1,
   (isotope_resolves_like_element demoAdas "C12" "C" (.element "D") 2 5 (8, 7)
      (mkRat 5291 10)).2.1,
   (isotope_resolves_like_element demoAdas "C12" "C" (.element "D") 2 5 (8, 7)
      (mkRat 5291 10)).2.2.1,
   (isotope_resolves_like_element demoAdas "C12" "C" (.element "D") 2 5 (8, 7)
      (mkRat 5291 10)).2.2.2.1,
   (isotope_resolves_like_element demoAdas "C12" "C" (.element "D") 2 5 (8, 7)
      (mkRat 5291 10)).2.2.2.2.1 (by decide) (by decide),
   (isotope_resolves_like_element demoAdas "C12" "C" (.element "D") 2 5 (8, 7)
      (mkRat 5291 10)).2.2.2.2.2 (by decide) (by decide)⟩

/-- Claim C8: `beam_emission_rate` resolves the wavelength first, against
the un-normalized beam species at ionisation stage 0 and the given
transition (propagating a wavelength failure as-is); only afterwards are
both species normalized unconditionally for the
`bme[beam][plasma][ionisation][transition]` lookup, and since the inner
wavelength call sees the original beam species, the wavelength method's own
isotope-to-element fallback applies. -/
theorem beam_emission_rate_wavelength_first (a : OpenADAS) (bm pl : Species)
    (sym parent : String) (i : Int) (t : Transition) (e : AdasError) (w : ℚ)
    (filename : String) :
    (a.wavelength bm 0 t = .error e →
      a.beam_emission_rate bm pl i t = .error e) ∧
    (a.wavelength bm 0 t = .ok w →
      a.config.bme bm.toElement pl.toElement i t = some filename →
      a.beam_emission_rate bm pl i t = .ok
        { data := adf22 (pathJoin a.data_path filename), wavelength := w,
          extrapolate := a.permit_extrapolation }) ∧
    (a.config.wavelength (.isotope sym parent) 0 t = none →
      a.config.wavelength (.element parent) 0 t = some w →
      a.config.bme (.element parent) pl.toElement i t = some filename →
      a.beam_emission_rate (.isotope sym parent) pl i t = .ok
        { data := adf22 (pathJoin a.data_path filename), wavelength := w,
          extrapolate := a.permit_extrapolation }) := by
  refine ⟨?_, ?_, ?_⟩
  · intro h1; simp [OpenADAS.beam_emission_rate, h1]
  · intro h1 h2; simp [OpenADAS.beam_emission_rate, h1, h2]
  · intro h1 h2 h3
    simp only [Species.toElement] at h3
    simp [OpenADAS.beam_emission_rate, OpenADAS.wavelength,
      Species.toElement, h1, h2, h3]

/-- Witness for C8: a failing beam wavelength propagates as-is; a
successful one is attached to the built rate; the isotope `D2` falls back
to the deuterium element entry at stage 0. -/
theorem beam_emission_rate_wavelength_first_witness :
    (demoAdas.beam_emission_rate (.element "X") (.element "C") 6 (3, 2) =
      .error (.runtimeError (wavelengthErrMsg "X" 0 (3, 2)))) ∧
    (demoAdas.beam_emission_rate (.element "D") (.element "C") 6 (3, 2) = .ok
      { data := adf22 (pathJoin "/data" "bme.dat"), wavelength := 656,
        extrapolate := false }) ∧
    (demoAdas.beam_emission_rate (.isotope "D2" "D") (.element "C") 6 (3, 2) = .ok
      { data := adf22 (pathJoin "/data" "bme.dat"), wavelength := 656,
        extrapolate := false }) :=
  ⟨(beam_emission_rate_wavelength_first demoAdas (.element "X") (.element "C")
      "q" "q" 6 (3, 2) (.runtimeError (wavelengthErrMsg "X" 0 (3, 2))) 0 "q").1
      (by decide),
   (beam_emission_rate_wavelength_first demoAdas (.element "D") (.element "C")
      "q" "q" 6 (3, 2) (.runtimeError "q") 656 "bme.dat").2.1
      (by decide) (by decide),
   (beam_emission_rate_wavelength_first demoAdas (.element "q") (.element "C")
      "D2" "D" 6 (3, 2) (.runtimeError "q") 656 "bme.dat").2.2
      (by decide) (by decide) (by decide)⟩

/-- Claim C9: `beam_population_rate` normalizes both species
unconditionally, passes the metastable level through as an opaque key, looks
up `bmp[beam][metastable][plasma][ionisation]` in that key order, and on a
missing path fails with the DataNotAvailable error naming all four
parameters. -/
theorem beam_population_rate_lookup (a : OpenADAS) (bm pl : Species)
    (m i : Int) (filename : String) :
    (a.beam_population_rate bm m pl i =
      a.beam_population_rate bm.toElement m pl.toElement i) ∧
    (a.config.bmp bm.toElement m pl.toElement i = some filename →
      a.beam_population_rate bm m pl i = .ok
        { data := adf22 (pathJoin a.data_path filename),
          extrapolate := a.permit_extrapolation }) ∧
    (a.config.bmp bm.toElement m pl.toElement i = none →
      a.beam_population_rate bm m pl i = .error (.runtimeError
        (beamPopErrMsg bm.toElement.symbol m pl.toElement.symbol i))) := by
  refine ⟨?_, ?_, ?_⟩
  · cases bm <;> cases pl <;> rfl
  · intro h1; simp [OpenADAS.beam_population_rate, h1]
  · intro h1; simp [OpenADAS.beam_population_rate, h1]

/-- Witness for C9: isotope arguments are normalized, the configured
metastable level 2 hits and level 3 misses with the error naming all four
parameters. -/
theorem beam_population_rate_lookup_witness :
    (demoAdas.beam_population_rate (.isotope "D2" "D") 2 (.isotope "C13" "C") 6 =
      demoAdas.beam_population_rate (.element "D") 2 (.element "C") 6) ∧
    (demoAdas.beam_population_rate (.isotope "D2" "D") 2 (.isotope "C13" "C") 6 = .ok
      { data := adf22 (pathJoin "/data" "bmp.dat"), extrapolate := false }) ∧
    (demoAdas.beam_population_rate (.isotope "D2" "D") 3 (.isotope "C13" "C") 6 =
      .error (.runtimeError (beamPopErrMsg "D" 3 "C" 6))) :=
  ⟨(beam_population_rate_lookup demoAdas (.isotope "D2" "D") (.isotope "C13" "C")
      2 6 "bmp.dat").1,
   (beam_population_rate_lookup demoAdas (.isotope "D2" "D") (.isotope "C13" "C")
      2 6 "bmp.dat").2.1 (by decide),
   (beam_population_rate_lookup demoAdas (.isotope "D2" "D") (.isotope "C13" "C")
      3 6 "q").2.2 (by decide)⟩

/-- Claim C10: the inner wavelength resolution of `beam_cx_rate` uses the
original, un-normalized receiver species, so when the configuration holds an
isotope-level wavelength entry, every returned rate carries the
isotope-level value (whatever the element-level entry says); the
element-level entry is used only when the isotope-level lookup misses. -/
theorem beam_cx_rate_uses_isotope_wavelength (a : OpenADAS) (dn : Species)
    (sym parent : String) (ri : Int) (t : Transition) (w w2 : ℚ)
    (data : List (Int × String)) :
    (a.config.wavelength (.isotope sym parent) (ri - 1) t = some w →
      a.config.cxs dn.toElement (.element parent) ri = some data →
      ∃ rates, a.beam_cx_rate dn (.isotope sym parent) ri t = .ok rates ∧
        ∀ r ∈ rates, r.wavelength = w) ∧
    (a.config.wavelength (.isotope sym parent) (ri - 1) t = none →
      a.config.wavelength (.element parent) (ri - 1) t = some w2 →
      a.config.cxs dn.toElement (.element parent) ri = some data →
      ∃ rates, a.beam_cx_rate dn (.isotope sym parent) ri t = .ok rates ∧
        ∀ r ∈ rates, r.wavelength = w2) := by
  refine ⟨?_, ?_⟩
  · intro h1 h2
    simp only [Species.toElement] at h2
    refine ⟨data.map fun p =>
        { donor_metastable := p.1, wavelength := w,
          data := adf12 (pathJoin a.data_path p.2) t,
          extrapolate := a.permit_extrapolation }, ?_, ?_⟩
    · simp [OpenADAS.beam_cx_rate, OpenADAS.wavelength, Species.toElement, h1, h2]
    · intro r hr
      obtain ⟨p, hp, rfl⟩ := List.mem_map.mp hr
      rfl
  · intro h1 h2 h3
    simp only [Species.toElement] at h3
    refine ⟨data.map fun p =>
        { donor_metastable := p.1, wavelength := w2,
          data := adf12 (pathJoin a.data_path p.2) t,
          extrapolate := a.permit_extrapolation }, ?_, ?_⟩
    · simp [OpenADAS.beam_cx_rate, OpenADAS.wavelength, Species.toElement,
        h1, h2, h3]
    · intro r hr
      obtain ⟨p, hp, rfl⟩ := List.mem_map.mp hr
      rfl

/-- Witness for C10: the isotope `C13` has its own wavelength entry (100),
so both returned rates carry 100 rather than carbon's 529.1; the isotope
`C12` has none, so its rates carry the element value 529.1. -/
theorem beam_cx_rate_uses_isotope_wavelength_witness :
    (∃ rates, demoAdas.beam_cx_rate (.element "D") (.isotope "C13" "C") 6 (8, 7) =
        .ok rates ∧ ∀ r ∈ rates, r.wavelength = 100) ∧
    (∃ rates, demoAdas.beam_cx_rate (.element "D") (.isotope "C12" "C") 6 (8, 7) =
        .ok rates ∧ ∀ r ∈ rates, r.wavelength = mkRat 5291 10) :=
  ⟨(beam_cx_rate_uses_isotope_wavelength demoAdas (.element "D") "C13" "C" 6
      (8, 7) 100 0 [(1, "file_a.dat"), (2, "file_b.dat")]).1
      (by decide) (by decide),
   (beam_cx_rate_uses_isotope_wavelength demoAdas (.element "D") "C12" "C" 6
      (8, 7) 0 (mkRat 5291 10) [(1, "file_a.dat"), (2, "file_b.dat")]).2
      (by decide) (by decide) (by decide)⟩
